import Mathlib

/-!
Shallow embedding of the gpu-raymarcher core (src/render.rs, src/input.rs,
src/window.rs, src/cmd/render.rs) and proofs about it.

Floating-point scalar payloads (`f32`/`f64`) are only ever copied by the
modelled code, never computed with, so they are carried as `Int`.  Rust
`HashSet`s are carried as `Finset`.  Key codes and mouse buttons are carried
as `Nat` (their identity is all the code uses).
-/

/-- Component carrier for `glam::Vec3` payloads (copied, never computed with). -/
structure Vec3 where
  x : Int
  y : Int
  z : Int
deriving DecidableEq

def Vec3.zero : Vec3 := ⟨0, 0, 0⟩

/-- Carrier for `glam::Mat3` (three column vectors; copied, never computed with). -/
structure Mat3 where
  x_axis : Vec3
  y_axis : Vec3
  z_axis : Vec3
deriving DecidableEq

def Mat3.identity : Mat3 := ⟨⟨1, 0, 0⟩, ⟨0, 1, 0⟩, ⟨0, 0, 1⟩⟩

/-- `Shape` from src/render.rs: the CSG tree of primitives and boolean nodes. -/
inductive Shape where
  | Sphere (pos : Vec3) (radius : Int)
  | BoxExact (pos : Vec3) (b : Vec3)
  | Plane (pos : Vec3) (normal : Vec3)
  | Union (shape1 shape2 : Shape)
  | Intersection (shape1 shape2 : Shape)
  | Subtraction (shape1 shape2 : Shape)
deriving DecidableEq

/-- `ShapeGPU` from src/render.rs: the fixed-layout flattened record. -/
structure ShapeGPU where
  pos : Vec3
  id : Nat
  v1 : Vec3
  f1 : Int
deriving DecidableEq

/-- `ShapeGPU::default()`: all fields zero. -/
def ShapeGPU.default : ShapeGPU := ⟨Vec3.zero, 0, Vec3.zero, 0⟩

namespace ShapesGPU

/-- `ShapesGPU::add` from src/render.rs: push the node record, then recursively
add `shape1`, then `shape2`; primitives push one record carrying their payload. -/
def add (acc : List ShapeGPU) (shape : Shape) : List ShapeGPU :=
  match shape with
  | .Union shape1 shape2 => add (add (acc ++ [⟨Vec3.zero, 0, Vec3.zero, 0⟩]) shape1) shape2
  | .Intersection shape1 shape2 => add (add (acc ++ [⟨Vec3.zero, 1, Vec3.zero, 0⟩]) shape1) shape2
  | .Subtraction shape1 shape2 => add (add (acc ++ [⟨Vec3.zero, 2, Vec3.zero, 0⟩]) shape1) shape2
  | .Sphere pos radius => acc ++ [⟨pos, 6, Vec3.zero, radius⟩]
  | .BoxExact pos b => acc ++ [⟨pos, 7, b, 0⟩]
  | .Plane pos normal => acc ++ [⟨pos, 8, normal, 0⟩]

end ShapesGPU

/-- `shapes_to_gpu` from src/render.rs: fold `ShapesGPU::add` over the roots,
starting from the empty record list. -/
def shapes_to_gpu (shapes : List Shape) : List ShapeGPU :=
  shapes.foldl ShapesGPU.add []

/-- Node count of a CSG tree, as the spec defines it (§3): 1 for a primitive,
1 + count(left) + count(right) for a composite. -/
def node_count : Shape → Nat
  | .Sphere _ _ => 1
  | .BoxExact _ _ => 1
  | .Plane _ _ => 1
  | .Union s1 s2 => 1 + node_count s1 + node_count s2
  | .Intersection s1 s2 => 1 + node_count s1 + node_count s2
  | .Subtraction s1 s2 => 1 + node_count s1 + node_count s2

/-- Spec-side preorder flattening (§4.2 of the spec, written from its words):
composite first emits a zero-payload record with its opcode, then the left
child's encoding, then the right child's; a primitive emits one record. -/
def flattenSpec : Shape → List ShapeGPU
  | .Union s1 s2 => ⟨Vec3.zero, 0, Vec3.zero, 0⟩ :: (flattenSpec s1 ++ flattenSpec s2)
  | .Intersection s1 s2 => ⟨Vec3.zero, 1, Vec3.zero, 0⟩ :: (flattenSpec s1 ++ flattenSpec s2)
  | .Subtraction s1 s2 => ⟨Vec3.zero, 2, Vec3.zero, 0⟩ :: (flattenSpec s1 ++ flattenSpec s2)
  | .Sphere pos radius => [⟨pos, 6, Vec3.zero, radius⟩]
  | .BoxExact pos b => [⟨pos, 7, b, 0⟩]
  | .Plane pos normal => [⟨pos, 8, normal, 0⟩]

/-- Whether a shape is a primitive (leaf) node. -/
def Shape.isPrimitive : Shape → Bool
  | .Sphere _ _ => true
  | .BoxExact _ _ => true
  | .Plane _ _ => true
  | _ => false

/-! ## Input state machine (src/input.rs) -/

/-- `KeyModifier` from src/input.rs. -/
inductive KeyModifier where
  | Shift
  | Ctrl
  | Alt
  | Logo
deriving DecidableEq

/-- `winit::event::ModifiersState`, reduced to the four predicates the code
reads from it (`shift()`, `ctrl()`, `alt()`, `logo()`). -/
structure ModifiersState where
  shift : Bool
  ctrl : Bool
  alt : Bool
  logo : Bool
deriving DecidableEq

/-- `KeyboardContext` from src/input.rs. Key codes are carried as `Nat`. -/
structure KeyboardContext where
  pressed : Finset Nat
  previous_pressed : Finset Nat
  pressed_modifiers : Finset KeyModifier
  previous_pressed_modifiers : Finset KeyModifier

/-- `KeyboardContext::default()`: all sets empty. -/
def KeyboardContext.default : KeyboardContext := ⟨∅, ∅, ∅, ∅⟩

namespace KeyboardContext

/-- `key_pressed`: membership in the current set. -/
def key_pressed (kc : KeyboardContext) (keycode : Nat) : Prop :=
  keycode ∈ kc.pressed

instance (kc : KeyboardContext) (keycode : Nat) : Decidable (key_pressed kc keycode) := by
  unfold key_pressed; infer_instance

/-- `key_just_pressed`: in the current set and not in the previous snapshot. -/
def key_just_pressed (kc : KeyboardContext) (keycode : Nat) : Prop :=
  keycode ∈ kc.pressed ∧ keycode ∉ kc.previous_pressed

instance (kc : KeyboardContext) (keycode : Nat) : Decidable (key_just_pressed kc keycode) := by
  unfold key_just_pressed; infer_instance

/-- `key_released`: not in the current set but in the previous snapshot. -/
def key_released (kc : KeyboardContext) (keycode : Nat) : Prop :=
  keycode ∉ kc.pressed ∧ keycode ∈ kc.previous_pressed

instance (kc : KeyboardContext) (keycode : Nat) : Decidable (key_released kc keycode) := by
  unfold key_released; infer_instance

/-- `modifier_pressed`. -/
def modifier_pressed (kc : KeyboardContext) (modifier : KeyModifier) : Prop :=
  modifier ∈ kc.pressed_modifiers

instance (kc : KeyboardContext) (m : KeyModifier) : Decidable (modifier_pressed kc m) := by
  unfold modifier_pressed; infer_instance

/-- `modifier_just_pressed`. -/
def modifier_just_pressed (kc : KeyboardContext) (modifier : KeyModifier) : Prop :=
  modifier ∈ kc.pressed_modifiers ∧ modifier ∉ kc.previous_pressed_modifiers

instance (kc : KeyboardContext) (m : KeyModifier) : Decidable (modifier_just_pressed kc m) := by
  unfold modifier_just_pressed; infer_instance

/-- `modifier_released`. -/
def modifier_released (kc : KeyboardContext) (modifier : KeyModifier) : Prop :=
  modifier ∉ kc.pressed_modifiers ∧ modifier ∈ kc.previous_pressed_modifiers

instance (kc : KeyboardContext) (m : KeyModifier) : Decidable (modifier_released kc m) := by
  unfold modifier_released; infer_instance

/-- `set_key`: insert into the current set. -/
def set_key (kc : KeyboardContext) (keycode : Nat) : KeyboardContext :=
  { kc with pressed := insert keycode kc.pressed }

/-- `release_key`: remove from the current set. -/
def release_key (kc : KeyboardContext) (keycode : Nat) : KeyboardContext :=
  { kc with pressed := kc.pressed.erase keycode }

/-- `modifiers_changed`: clear the current modifier set, then insert each of
Shift, Ctrl, Alt, Logo whose bit is set in the incoming state. -/
def modifiers_changed (kc : KeyboardContext) (state : ModifiersState) : KeyboardContext :=
  let m0 : Finset KeyModifier := ∅
  let m1 := if state.shift then insert KeyModifier.Shift m0 else m0
  let m2 := if state.ctrl then insert KeyModifier.Ctrl m1 else m1
  let m3 := if state.alt then insert KeyModifier.Alt m2 else m2
  let m4 := if state.logo then insert KeyModifier.Logo m3 else m3
  { kc with pressed_modifiers := m4 }

/-- `save_keys`: copy the current set into the previous snapshot. -/
def save_keys (kc : KeyboardContext) : KeyboardContext :=
  { kc with previous_pressed := kc.pressed }

/-- `save_modifiers`: copy the current modifier set into its snapshot. -/
def save_modifiers (kc : KeyboardContext) : KeyboardContext :=
  { kc with previous_pressed_modifiers := kc.pressed_modifiers }

end KeyboardContext

/-- `MouseContext` from src/input.rs. Buttons are carried as `Nat`; the `f64`
position and delta pairs are carried as `Int × Int` (copied, never computed
with by the modelled code except the on-screen bounds check). -/
structure MouseContext where
  on_screen : Bool
  pos : Int × Int
  mouse_delta : Int × Int
  pressed : Finset Nat
  previous_pressed : Finset Nat
  scroll_delta : Int × Int

/-- `MouseContext::default()`. -/
def MouseContext.default : MouseContext := ⟨false, (0, 0), (0, 0), ∅, ∅, (0, 0)⟩

namespace MouseContext

/-- `button_pressed`. -/
def button_pressed (mc : MouseContext) (keycode : Nat) : Prop :=
  keycode ∈ mc.pressed

instance (mc : MouseContext) (b : Nat) : Decidable (button_pressed mc b) := by
  unfold button_pressed; infer_instance

/-- `button_just_pressed`. -/
def button_just_pressed (mc : MouseContext) (keycode : Nat) : Prop :=
  keycode ∈ mc.pressed ∧ keycode ∉ mc.previous_pressed

instance (mc : MouseContext) (b : Nat) : Decidable (button_just_pressed mc b) := by
  unfold button_just_pressed; infer_instance

/-- `button_released`. -/
def button_released (mc : MouseContext) (keycode : Nat) : Prop :=
  keycode ∉ mc.pressed ∧ keycode ∈ mc.previous_pressed

instance (mc : MouseContext) (b : Nat) : Decidable (button_released mc b) := by
  unfold button_released; infer_instance

/-- `set_on_screen`. -/
def set_on_screen (mc : MouseContext) (on_screen : Bool) : MouseContext :=
  { mc with on_screen := on_screen }

/-- `set_mouse_delta`: the stored delta is OVERWRITTEN with the incoming one. -/
def set_mouse_delta (mc : MouseContext) (change : Int × Int) : MouseContext :=
  { mc with mouse_delta := change }

/-- `set_scroll_delta`: the stored delta is OVERWRITTEN with the incoming one. -/
def set_scroll_delta (mc : MouseContext) (change : Int × Int) : MouseContext :=
  { mc with scroll_delta := change }

/-- `press_button`. -/
def press_button (mc : MouseContext) (keycode : Nat) : MouseContext :=
  { mc with pressed := insert keycode mc.pressed }

/-- `release_button`. -/
def release_button (mc : MouseContext) (keycode : Nat) : MouseContext :=
  { mc with pressed := mc.pressed.erase keycode }

/-- `save_buttons`: copy the current set into the previous snapshot. -/
def save_buttons (mc : MouseContext) : MouseContext :=
  { mc with previous_pressed := mc.pressed }

end MouseContext

/-- `InputContext` from src/input.rs. -/
structure InputContext where
  keyboard : KeyboardContext
  mouse : MouseContext

def InputContext.default : InputContext := ⟨KeyboardContext.default, MouseContext.default⟩

/-! ## Frame orchestrator (src/render.rs, src/cmd/render.rs) -/

/-- `MAX_SHAPE_AMOUNT` from src/render.rs. -/
def MAX_SHAPE_AMOUNT : Nat := 256

/-- `Globals` from src/render.rs. `f32` fields carried as `Int`. -/
structure Globals where
  screen_dim : Nat × Nat
  camera_pos : Vec3
  camera_rot : Mat3
  light_pos : Vec3
  focal_length : Int
  time : Int
  shape_amount : Nat
deriving DecidableEq

/-- The default `Globals` built in `RenderContext::new`. -/
def Globals.initial : Globals :=
  ⟨(1280, 720), Vec3.zero, Mat3.identity, ⟨-2, 2, -4⟩, 1, 2, 0⟩

/-- `TimeContext`, reduced to the one value the modelled code reads from it. -/
structure TimeContext where
  time_since_start : Int
deriving DecidableEq

/-- CPU-visible state of `RenderContext` (src/render.rs).  The device-side
uniform and storage buffers are carried as the last value written to them; the
external `surface.configure` call is carried as a call counter. -/
structure RenderContext where
  surface_config_width : Nat
  surface_config_height : Nat
  configure_calls : Nat
  window_width : Nat
  window_height : Nat
  globals : Globals
  shapes : List Shape
  global_uniform_buffer : Globals
  input_buffer : List ShapeGPU
deriving DecidableEq

namespace RenderContext

/-- `resize_window`: when both dimensions are positive, store the new window
size, copy it into the surface configuration and reconfigure the surface. -/
def resize_window (rc : RenderContext) (w h : Nat) : RenderContext :=
  if 0 < w ∧ 0 < h then
    { rc with
      window_width := w
      window_height := h
      surface_config_width := w
      surface_config_height := h
      configure_calls := rc.configure_calls + 1 }
  else rc

/-- `update_global_uniforms`: overwrite `globals.time` and
`globals.shape_amount`, then write the whole record to the uniform buffer. -/
def update_global_uniforms (rc : RenderContext) (time_ctx : TimeContext) (len : Nat) :
    RenderContext :=
  let g := { rc.globals with time := time_ctx.time_since_start, shape_amount := len }
  { rc with globals := g, global_uniform_buffer := g }

/-- `update_input_buffer`: write the encoded records to the storage buffer. -/
def update_input_buffer (rc : RenderContext) (shapes : List ShapeGPU) : RenderContext :=
  { rc with input_buffer := shapes }

/-- `execute_compute`: the dispatch has no CPU-visible state effect. -/
def execute_compute (rc : RenderContext) : RenderContext := rc

/-- `execute_raymarch`: update globals with `shapes.len()`, upload the encoded
shapes, dispatch, then clear the pending shape list. -/
def execute_raymarch (rc : RenderContext) (time_ctx : TimeContext) : RenderContext :=
  let rc1 := update_global_uniforms rc time_ctx rc.shapes.length
  let rc2 := update_input_buffer rc1 (shapes_to_gpu rc1.shapes)
  let rc3 := execute_compute rc2
  { rc3 with shapes := [] }

end RenderContext

/-- `wgpu::SurfaceError`. -/
inductive SurfaceError where
  | Timeout
  | Outdated
  | Lost
  | OutOfMemory
deriving DecidableEq

/-- `RenderContext::render`: runs `execute_raymarch` first; the subsequent
surface acquisition/present outcome is supplied by the environment. -/
def RenderContext.render (rc : RenderContext) (time_ctx : TimeContext)
    (surface_result : Except SurfaceError Unit) :
    RenderContext × Except SurfaceError Unit :=
  (rc.execute_raymarch time_ctx, surface_result)

/-- `Context` from src/context.rs, restricted to the fields the claims touch. -/
structure Context where
  render : RenderContext
  input : InputContext
  time : TimeContext

/-- `render_shape` from src/cmd/render.rs: `debug_assert!(shapes.len() <
MAX_SHAPE_AMOUNT)`, then push.  The assertion failure is modelled as `none`. -/
def render_shape (ctx : Context) (shape : Shape) : Option Context :=
  if ctx.render.shapes.length < MAX_SHAPE_AMOUNT then
    some { ctx with render := { ctx.render with shapes := ctx.render.shapes ++ [shape] } }
  else none

/-- `render_shapes` from src/cmd/render.rs: submit each shape in order; the
first assertion failure aborts the run. -/
def render_shapes (ctx : Context) (shapes : List Shape) : Option Context :=
  match shapes with
  | [] => some ctx
  | shape :: rest =>
      match render_shape ctx shape with
      | some ctx1 => render_shapes ctx1 rest
      | none => none

/-! ## Event loop (src/window.rs) -/

/-- The events `run_window` dispatches on, with the data the handlers read.
`KeyboardInput` carries winit's `Option<VirtualKeyCode>`.  `RedrawRequested`
carries the environment-chosen surface outcome of this frame's `render` call;
`MainEventsCleared` carries the application's `update` return value. -/
inductive LoopEvent where
  | CloseRequested
  | Resized (w h : Nat)
  | ScaleFactorChanged (w h : Nat)
  | CursorMoved (x y : Int)
  | MouseInputPressed (button : Nat)
  | MouseInputReleased (button : Nat)
  | CursorLeft
  | MouseWheel (dx dy : Int)
  | KeyboardInputPressed (keycode : Option Nat)
  | KeyboardInputReleased (keycode : Option Nat)
  | ModifiersChanged (state : ModifiersState)
  | MouseMotion (dx dy : Int)
  | RedrawRequested (surface_result : Except SurfaceError Unit)
  | MainEventsCleared (update_result : Bool)

/-- `set_pos` from src/input.rs: store the position and recompute the
on-screen flag against the current window bounds. -/
def MouseContext.set_pos (mc : MouseContext) (x y : Int) (rc : RenderContext) :
    MouseContext :=
  let mc1 := { mc with pos := (x, y) }
  if 0 ≤ x ∧ x < (rc.window_width : Int) ∧ 0 ≤ y ∧ y < (rc.window_height : Int) then
    { mc1 with on_screen := true }
  else
    { mc1 with on_screen := false }

/-- One step of the `run_window` event match (src/window.rs).  Returns the
updated context and the exit flag (`control_flow = Exit`). -/
def handle_event (ctx : Context) (event : LoopEvent) : Context × Bool :=
  match event with
  | .CloseRequested => (ctx, true)
  | .Resized w h => ({ ctx with render := ctx.render.resize_window w h }, false)
  | .ScaleFactorChanged w h => ({ ctx with render := ctx.render.resize_window w h }, false)
  | .CursorMoved x y =>
      ({ ctx with input := { ctx.input with mouse := ctx.input.mouse.set_pos x y ctx.render } },
        false)
  | .MouseInputPressed button =>
      ({ ctx with input := { ctx.input with mouse := ctx.input.mouse.press_button button } },
        false)
  | .MouseInputReleased button =>
      ({ ctx with input := { ctx.input with mouse := ctx.input.mouse.release_button button } },
        false)
  | .CursorLeft =>
      ({ ctx with input := { ctx.input with mouse := ctx.input.mouse.set_on_screen false } },
        false)
  | .MouseWheel dx dy =>
      ({ ctx with input := { ctx.input with mouse := ctx.input.mouse.set_scroll_delta (dx, dy) } },
        false)
  | .KeyboardInputPressed keycode =>
      match keycode with
      | some k =>
          ({ ctx with input := { ctx.input with keyboard := ctx.input.keyboard.set_key k } },
            false)
      | none => (ctx, false)
  | .KeyboardInputReleased keycode =>
      match keycode with
      | some k =>
          ({ ctx with input := { ctx.input with keyboard := ctx.input.keyboard.release_key k } },
            false)
      | none => (ctx, false)
  | .ModifiersChanged state =>
      ({ ctx with input := { ctx.input with keyboard := ctx.input.keyboard.modifiers_changed state } },
        false)
  | .MouseMotion dx dy =>
      ({ ctx with input := { ctx.input with mouse := ctx.input.mouse.set_mouse_delta (dx, dy) } },
        false)
  | .RedrawRequested surface_result =>
      let res := ctx.render.render ctx.time surface_result
      let rc := res.1
      match res.2 with
      | .ok _ => ({ ctx with render := rc }, false)
      | .error .Lost =>
          ({ ctx with render := rc.resize_window rc.window_width rc.window_height }, false)
      | .error .OutOfMemory => ({ ctx with render := rc }, true)
      | .error _ => ({ ctx with render := rc }, false)
  | .MainEventsCleared update_result =>
      if update_result then (ctx, true) else (ctx, false)

/-! ## Spec-side comparers and concrete inputs -/

/-- The single record a primitive flattens to (used to state the
one-record-per-primitive-root property); for a composite this is its
zero-payload header record. -/
def primitive_record : Shape → ShapeGPU
  | .Sphere pos radius => ⟨pos, 6, Vec3.zero, radius⟩
  | .BoxExact pos b => ⟨pos, 7, b, 0⟩
  | .Plane pos normal => ⟨pos, 8, normal, 0⟩
  | .Union _ _ => ⟨Vec3.zero, 0, Vec3.zero, 0⟩
  | .Intersection _ _ => ⟨Vec3.zero, 1, Vec3.zero, 0⟩
  | .Subtraction _ _ => ⟨Vec3.zero, 2, Vec3.zero, 0⟩

/-- Spec-side translation of a modifier bitmask into a fresh
`{Shift, Ctrl, Alt, Logo}` set (§4.3 of the spec, written from its words). -/
def modifier_set (state : ModifiersState) : Finset KeyModifier :=
  (if state.shift then {KeyModifier.Shift} else ∅) ∪
  (if state.ctrl then {KeyModifier.Ctrl} else ∅) ∪
  (if state.alt then {KeyModifier.Alt} else ∅) ∪
  (if state.logo then {KeyModifier.Logo} else ∅)

/-- A left-leaning chain of unions over spheres: `sphereChain n` has
`2 * n + 1` nodes but is a single root shape. -/
def sphereChain : Nat → Shape
  | 0 => .Sphere Vec3.zero 1
  | n + 1 => .Union (.Sphere Vec3.zero 1) (sphereChain n)

/-- The CPU-visible state `RenderContext::new` produces for a 1280x720 window
(one initial `surface.configure` call; default globals also written to the
uniform buffer; empty pending shape list and storage buffer). -/
def RenderContext.initial : RenderContext :=
  ⟨1280, 720, 1, 1280, 720, Globals.initial, [], Globals.initial, []⟩

/-- The context at startup. -/
def Context.initial : Context :=
  ⟨RenderContext.initial, InputContext.default, ⟨0⟩⟩

/-! ## Helper lemmas -/

theorem ShapesGPU.add_eq_append_flatten (s : Shape) :
    ∀ acc : List ShapeGPU, ShapesGPU.add acc s = acc ++ flattenSpec s := by
  induction s with
  | Sphere pos radius => intro acc; rfl
  | BoxExact pos b => intro acc; rfl
  | Plane pos normal => intro acc; rfl
  | Union s1 s2 ih1 ih2 =>
      intro acc
      simp [ShapesGPU.add, flattenSpec, ih1, ih2]
  | Intersection s1 s2 ih1 ih2 =>
      intro acc
      simp [ShapesGPU.add, flattenSpec, ih1, ih2]
  | Subtraction s1 s2 ih1 ih2 =>
      intro acc
      simp [ShapesGPU.add, flattenSpec, ih1, ih2]

theorem flattenSpec_length (s : Shape) : (flattenSpec s).length = node_count s := by
  induction s with
  | Sphere pos radius => rfl
  | BoxExact pos b => rfl
  | Plane pos normal => rfl
  | Union s1 s2 ih1 ih2 => simp [flattenSpec, node_count, ih1, ih2]; omega
  | Intersection s1 s2 ih1 ih2 => simp [flattenSpec, node_count, ih1, ih2]; omega
  | Subtraction s1 s2 ih1 ih2 => simp [flattenSpec, node_count, ih1, ih2]; omega

theorem shapes_to_gpu_eq_flatten (roots : List Shape) :
    shapes_to_gpu roots = roots.flatMap flattenSpec := by
  suffices h : ∀ acc : List ShapeGPU,
      roots.foldl ShapesGPU.add acc = acc ++ roots.flatMap flattenSpec by
    simpa using h []
  induction roots with
  | nil => intro acc; simp
  | cons s rest ih =>
      intro acc
      simp [List.foldl, ShapesGPU.add_eq_append_flatten, ih]

theorem flattenSpec_of_primitive (s : Shape) (h : s.isPrimitive = true) :
    flattenSpec s = [primitive_record s] := by
  cases s <;> first | rfl | simp [Shape.isPrimitive] at h

theorem node_count_of_primitive (s : Shape) (h : s.isPrimitive = true) :
    node_count s = 1 := by
  cases s <;> first | rfl | simp [Shape.isPrimitive] at h

/-! ## Claim theorems -/

/-- Claim C4: `ShapesGPU::add` emits records in preorder — a composite node
first pushes one record whose opcode is that of the composite and whose pos,
v1 and f1 payload fields are all zero, then the full encoding of the left
child, then the right child; a primitive pushes exactly one record carrying
its pos and opcode with the radius in f1 and half-extents / normal in v1;
opcodes are 0=Union, 1=Intersection, 2=Subtraction, 6=Sphere, 7=BoxExact,
8=Plane; so Union(Sphere A, Sphere B) encodes as [Union header, A, B]. -/
theorem C4_encode_preorder :
    (∀ (acc : List ShapeGPU) (s : Shape), ShapesGPU.add acc s = acc ++ flattenSpec s) ∧
    (∀ s1 s2 : Shape,
      flattenSpec (.Union s1 s2) =
        ⟨Vec3.zero, 0, Vec3.zero, 0⟩ :: (flattenSpec s1 ++ flattenSpec s2) ∧
      flattenSpec (.Intersection s1 s2) =
        ⟨Vec3.zero, 1, Vec3.zero, 0⟩ :: (flattenSpec s1 ++ flattenSpec s2) ∧
      flattenSpec (.Subtraction s1 s2) =
        ⟨Vec3.zero, 2, Vec3.zero, 0⟩ :: (flattenSpec s1 ++ flattenSpec s2)) ∧
    (∀ (pos : Vec3) (radius : Int),
      flattenSpec (.Sphere pos radius) = [⟨pos, 6, Vec3.zero, radius⟩]) ∧
    (∀ pos b : Vec3, flattenSpec (.BoxExact pos b) = [⟨pos, 7, b, 0⟩]) ∧
    (∀ pos normal : Vec3, flattenSpec (.Plane pos normal) = [⟨pos, 8, normal, 0⟩]) ∧
    (∀ (pA : Vec3) (rA : Int) (pB : Vec3) (rB : Int),
      shapes_to_gpu [.Union (.Sphere pA rA) (.Sphere pB rB)] =
        [⟨Vec3.zero, 0, Vec3.zero, 0⟩, ⟨pA, 6, Vec3.zero, rA⟩, ⟨pB, 6, Vec3.zero, rB⟩]) := by
  refine ⟨fun acc s => ShapesGPU.add_eq_append_flatten s acc,
    fun s1 s2 => ⟨rfl, rfl, rfl⟩, fun pos radius => rfl, fun pos b => rfl,
    fun pos normal => rfl, fun pA rA pB rB => ?_⟩
  simp [shapes_to_gpu_eq_flatten, flattenSpec]

/-- Claim C5: the number of records produced by encoding a single root equals
its node count (1 for a primitive, 1 + left + right for a composite), and a
list of primitive-only roots encodes to exactly one record per root, in
submission order. -/
theorem C5_record_count :
    (∀ T : Shape, (shapes_to_gpu [T]).length = node_count T) ∧
    (∀ roots : List Shape, (∀ s ∈ roots, s.isPrimitive = true) →
      shapes_to_gpu roots = roots.map primitive_record ∧
      (shapes_to_gpu roots).length = roots.length) := by
  constructor
  · intro T
    simp [shapes_to_gpu_eq_flatten, flattenSpec_length]
  · intro roots h
    have hmap : shapes_to_gpu roots = roots.map primitive_record := by
      rw [shapes_to_gpu_eq_flatten]
      induction roots with
      | nil => rfl
      | cons s rest ih =>
          have hs : s.isPrimitive = true := h s (List.mem_cons_self s rest)
          simp only [List.flatMap_cons, List.map_cons, flattenSpec_of_primitive s hs]
          rw [ih (fun t ht => h t (List.mem_cons_of_mem s ht))]
          rfl
    exact ⟨hmap, by rw [hmap]; simp⟩

/-- Witness for C5 at two concrete primitive roots. -/
theorem C5_record_count_witness :
    (∀ s ∈ ([Shape.Sphere ⟨1, 2, 3⟩ 4, Shape.Plane Vec3.zero ⟨0, 1, 0⟩] : List Shape),
      s.isPrimitive = true) ∧
    shapes_to_gpu [Shape.Sphere ⟨1, 2, 3⟩ 4, Shape.Plane Vec3.zero ⟨0, 1, 0⟩] =
      ([Shape.Sphere ⟨1, 2, 3⟩ 4, Shape.Plane Vec3.zero ⟨0, 1, 0⟩] : List Shape).map
        primitive_record :=
  ⟨by decide,
    (C5_record_count.2 [Shape.Sphere ⟨1, 2, 3⟩ 4, Shape.Plane Vec3.zero ⟨0, 1, 0⟩]
      (by decide)).1⟩

/-- Claim C6: pressed / just-pressed / released are derived from the pair
(current set, previous snapshot) exactly as stated, for keys and mouse
buttons; and the concrete scenario from the initial state holds: setKey(A)
gives pressed and just-pressed but not released; after snapshot and
setKey(B) with A still held, A is pressed but not just-pressed; after
snapshot and releaseKey(A), A is not pressed and is released. -/
theorem C6_edge_detection :
    (∀ (kc : KeyboardContext) (k : Nat),
      (kc.key_pressed k ↔ k ∈ kc.pressed) ∧
      (kc.key_just_pressed k ↔ k ∈ kc.pressed ∧ k ∉ kc.previous_pressed) ∧
      (kc.key_released k ↔ k ∉ kc.pressed ∧ k ∈ kc.previous_pressed)) ∧
    (∀ (mc : MouseContext) (b : Nat),
      (mc.button_pressed b ↔ b ∈ mc.pressed) ∧
      (mc.button_just_pressed b ↔ b ∈ mc.pressed ∧ b ∉ mc.previous_pressed) ∧
      (mc.button_released b ↔ b ∉ mc.pressed ∧ b ∈ mc.previous_pressed)) ∧
    (∀ A B : Nat,
      (KeyboardContext.default.set_key A).key_pressed A ∧
      (KeyboardContext.default.set_key A).key_just_pressed A ∧
      ¬ (KeyboardContext.default.set_key A).key_released A ∧
      ((KeyboardContext.default.set_key A).save_keys.set_key B).key_pressed A ∧
      ¬ ((KeyboardContext.default.set_key A).save_keys.set_key B).key_just_pressed A ∧
      ¬ (((KeyboardContext.default.set_key A).save_keys.set_key B).save_keys.release_key
          A).key_pressed A ∧
      (((KeyboardContext.default.set_key A).save_keys.set_key B).save_keys.release_key
          A).key_released A) := by
  refine ⟨fun kc k => ⟨Iff.rfl, Iff.rfl, Iff.rfl⟩,
    fun mc b => ⟨Iff.rfl, Iff.rfl, Iff.rfl⟩, fun A B => ?_⟩
  simp [KeyboardContext.default, KeyboardContext.set_key, KeyboardContext.save_keys,
    KeyboardContext.release_key, KeyboardContext.key_pressed,
    KeyboardContext.key_just_pressed, KeyboardContext.key_released]

/-- Claim C7: `modifiers_changed` replaces the current modifier set entirely
with the fresh translation of the incoming bitmask into {Shift, Ctrl, Alt,
Logo}; and the concrete scenario holds: modifiersChanged({Shift, Ctrl}),
snapshot, modifiersChanged({Ctrl}) gives released(Shift), pressed(Ctrl), and
not released(Ctrl). -/
theorem C7_modifiers_wholesale :
    (∀ (kc : KeyboardContext) (state : ModifiersState),
      (kc.modifiers_changed state).pressed_modifiers = modifier_set state) ∧
    ((((KeyboardContext.default.modifiers_changed
          ⟨true, true, false, false⟩).save_modifiers).modifiers_changed
        ⟨false, true, false, false⟩).modifier_released KeyModifier.Shift ∧
     (((KeyboardContext.default.modifiers_changed
          ⟨true, true, false, false⟩).save_modifiers).modifiers_changed
        ⟨false, true, false, false⟩).modifier_pressed KeyModifier.Ctrl ∧
     ¬ (((KeyboardContext.default.modifiers_changed
          ⟨true, true, false, false⟩).save_modifiers).modifiers_changed
        ⟨false, true, false, false⟩).modifier_released KeyModifier.Ctrl) := by
  constructor
  · intro kc state
    obtain ⟨s, c, a, l⟩ := state
    simp only [KeyboardContext.modifiers_changed]
    cases s <;> cases c <;> cases a <;> cases l <;> decide
  · decide

/-- Claim C10: immediately after a snapshot (save_keys, save_modifiers or
save_buttons), and before any further mutation, just-pressed and released are
false for every key, modifier and button. -/
theorem C10_snapshot_no_edges :
    ∀ (kc : KeyboardContext) (mc : MouseContext) (k : Nat) (m : KeyModifier) (b : Nat),
      ¬ kc.save_keys.key_just_pressed k ∧
      ¬ kc.save_keys.key_released k ∧
      ¬ kc.save_modifiers.modifier_just_pressed m ∧
      ¬ kc.save_modifiers.modifier_released m ∧
      ¬ mc.save_buttons.button_just_pressed b ∧
      ¬ mc.save_buttons.button_released b := by
  intro kc mc k m b
  simp [KeyboardContext.save_keys, KeyboardContext.save_modifiers,
    MouseContext.save_buttons, KeyboardContext.key_just_pressed,
    KeyboardContext.key_released, KeyboardContext.modifier_just_pressed,
    KeyboardContext.modifier_released, MouseContext.button_just_pressed,
    MouseContext.button_released]

theorem resize_window_shapes (rc : RenderContext) (w h : Nat) :
    (rc.resize_window w h).shapes = rc.shapes := by
  unfold RenderContext.resize_window
  split <;> rfl

/-- Claim C8: at the end of every frame the pending root list is empty — it is
cleared inside `execute_raymarch` after encoding and uploading, so whatever
branch the redraw handler takes, no submitted shape is carried over; and the
uploaded storage buffer holds the encoding of the pre-clear pending roots. -/
theorem C8_scene_cleared :
    ∀ (rc : RenderContext) (tc : TimeContext),
      (rc.execute_raymarch tc).shapes = [] ∧
      (rc.execute_raymarch tc).input_buffer = shapes_to_gpu rc.shapes ∧
      ∀ (ctx : Context) (sr : Except SurfaceError Unit),
        (handle_event ctx (.RedrawRequested sr)).1.render.shapes = [] := by
  intro rc tc
  refine ⟨rfl, rfl, ?_⟩
  intro ctx sr
  rcases sr with e | _
  · cases e <;>
      simp [handle_event, RenderContext.render, resize_window_shapes,
        RenderContext.execute_raymarch, RenderContext.update_global_uniforms,
        RenderContext.update_input_buffer, RenderContext.execute_compute]
  · rfl

theorem render_shapes_isSome_iff (roots : List Shape) :
    ∀ ctx : Context, (render_shapes ctx roots).isSome = true ↔
      (roots = [] ∨ ctx.render.shapes.length + roots.length ≤ MAX_SHAPE_AMOUNT) := by
  induction roots with
  | nil => intro ctx; simp [render_shapes]
  | cons s rest ih =>
      intro ctx
      by_cases h : ctx.render.shapes.length < MAX_SHAPE_AMOUNT
      · have hstep : render_shape ctx s =
            some { ctx with render := { ctx.render with shapes := ctx.render.shapes ++ [s] } } := by
          simp [render_shape, h]
        simp only [render_shapes, hstep]
        rw [ih]
        have hlen : ({ ctx with render :=
            { ctx.render with shapes := ctx.render.shapes ++ [s] } } : Context).render.shapes.length
            = ctx.render.shapes.length + 1 := by simp
        rw [hlen]
        constructor
        · rintro (hrest | hle)
          · subst hrest; right; simp; omega
          · right; simp at hle ⊢; omega
        · rintro (habs | hle)
          · exact (List.cons_ne_nil s rest habs).elim
          · right; simp at hle ⊢; omega
      · have hstep : render_shape ctx s = none := by
          simp [render_shape, h]
        simp only [render_shapes, hstep]
        have hr : ¬ (s :: rest = [] ∨
            ctx.render.shapes.length + (s :: rest).length ≤ MAX_SHAPE_AMOUNT) := by
          rintro (habs | hle)
          · exact List.cons_ne_nil s rest habs
          · simp at hle; omega
        exact iff_of_false (by simp) hr

set_option maxRecDepth 4000 in
/-- Counterexample to claim C1: a single submitted root with 257 flattened
nodes (`sphereChain 128`) is accepted by `render_shape` even though its
cumulative node count exceeds MAX_SHAPE_AMOUNT; the claim requires this
submission to fail. -/
theorem C1_counterexample :
    ¬ (MAX_SHAPE_AMOUNT < node_count (sphereChain 128) →
        (render_shape Context.initial (sphereChain 128)).isSome = false) := by
  decide

/-- Claim C1 amended: `render_shape` fails exactly when the number of pending
ROOT shapes has already reached MAX_SHAPE_AMOUNT — the flattened node count
is not consulted; hence a submission run from the empty pending list succeeds
exactly when it has at most MAX_SHAPE_AMOUNT roots, whatever their node
counts. -/
theorem C1_capacity_root_count :
    (∀ (ctx : Context) (s : Shape),
      (render_shape ctx s = none ↔ MAX_SHAPE_AMOUNT ≤ ctx.render.shapes.length) ∧
      (ctx.render.shapes.length < MAX_SHAPE_AMOUNT →
        render_shape ctx s =
          some { ctx with render :=
            { ctx.render with shapes := ctx.render.shapes ++ [s] } })) ∧
    (∀ roots : List Shape,
      (render_shapes Context.initial roots).isSome = true ↔
        roots.length ≤ MAX_SHAPE_AMOUNT) := by
  constructor
  · intro ctx s
    constructor
    · by_cases h : ctx.render.shapes.length < MAX_SHAPE_AMOUNT
      · simp only [render_shape, if_pos h]
        exact iff_of_false (Option.some_ne_none _) (by omega)
      · simp only [render_shape, if_neg h]
        exact iff_of_true trivial (by omega)
    · intro h
      simp [render_shape, h]
  · intro roots
    rw [render_shapes_isSome_iff]
    have h0 : Context.initial.render.shapes.length = 0 := rfl
    rw [h0]
    constructor
    · rintro (rfl | hle)
      · simp [MAX_SHAPE_AMOUNT]
      · omega
    · intro hle
      right
      omega

/-- Witness for the amended C1 at a concrete submission. -/
theorem C1_capacity_root_count_witness :
    Context.initial.render.shapes.length < MAX_SHAPE_AMOUNT ∧
    render_shape Context.initial (Shape.Sphere Vec3.zero 1) =
      some { Context.initial with render :=
        { Context.initial.render with
          shapes := Context.initial.render.shapes ++ [Shape.Sphere Vec3.zero 1] } } :=
  ⟨by decide,
    (C1_capacity_root_count.1 Context.initial (Shape.Sphere Vec3.zero 1)).2 (by decide)⟩

theorem sum_map_node_count (l : List Shape) (h : ∀ s ∈ l, s.isPrimitive = true) :
    (l.map node_count).sum = l.length := by
  induction l with
  | nil => rfl
  | cons s rest ih =>
      have hs : node_count s = 1 := node_count_of_primitive s (h s (List.mem_cons_self s rest))
      simp [hs, ih (fun t ht => h t (List.mem_cons_of_mem s ht))]
      omega

/-- Counterexample to claim C2: with the single pending root
Union(Sphere, Sphere), `execute_raymarch` sets `shape_amount` to 1 (the root
count), not to the total flattened record count 3 that the claim requires. -/
theorem C2_counterexample :
    ¬ ((({ RenderContext.initial with
            shapes := [Shape.Union (Shape.Sphere Vec3.zero 1) (Shape.Sphere Vec3.zero 2)] }
          : RenderContext).execute_raymarch ⟨5⟩).globals.shape_amount
        = ([Shape.Union (Shape.Sphere Vec3.zero 1)
              (Shape.Sphere Vec3.zero 2)].map node_count).sum) := by
  decide

/-- Claim C2 amended: after step 1 of the frame, `shape_amount` equals the
NUMBER OF PENDING ROOTS (`shapes.len()`), not the total flattened record
count; the two agree when every root is primitive, and a single submitted
Sphere yields `shape_amount` = 1.  The updated globals are also what is
written to the uniform buffer, with `time` taken from the time context. -/
theorem C2_shape_amount_is_root_count :
    (∀ (rc : RenderContext) (tc : TimeContext),
      (rc.execute_raymarch tc).globals.shape_amount = rc.shapes.length ∧
      (rc.execute_raymarch tc).global_uniform_buffer = (rc.execute_raymarch tc).globals ∧
      (rc.execute_raymarch tc).globals.time = tc.time_since_start) ∧
    (∀ (rc : RenderContext) (tc : TimeContext), (∀ s ∈ rc.shapes, s.isPrimitive = true) →
      (rc.execute_raymarch tc).globals.shape_amount = (rc.shapes.map node_count).sum) ∧
    (∀ (rc : RenderContext) (tc : TimeContext) (pos : Vec3) (radius : Int),
      rc.shapes = [Shape.Sphere pos radius] →
      (rc.execute_raymarch tc).globals.shape_amount = 1) := by
  refine ⟨fun rc tc => ⟨rfl, rfl, rfl⟩, fun rc tc h => ?_, fun rc tc pos radius h => ?_⟩
  · have : (rc.execute_raymarch tc).globals.shape_amount = rc.shapes.length := rfl
    rw [this, sum_map_node_count rc.shapes h]
  · have : (rc.execute_raymarch tc).globals.shape_amount = rc.shapes.length := rfl
    rw [this, h]
    rfl

/-- Witness for the amended C2 at a concrete single-Sphere frame. -/
theorem C2_shape_amount_witness :
    (({ RenderContext.initial with shapes := [Shape.Sphere Vec3.zero 1] }
        : RenderContext).shapes = [Shape.Sphere Vec3.zero 1]) ∧
    (({ RenderContext.initial with shapes := [Shape.Sphere Vec3.zero 1] }
        : RenderContext).execute_raymarch ⟨7⟩).globals.shape_amount = 1 :=
  ⟨rfl,
    C2_shape_amount_is_root_count.2.2
      { RenderContext.initial with shapes := [Shape.Sphere Vec3.zero 1] } ⟨7⟩
      Vec3.zero 1 rfl⟩

/-- Counterexample to claim C3: two mouse-motion events inside one frame leave
the stored delta equal to the LAST event's delta (2, 0), not the sum (3, 0)
the claim requires. -/
theorem C3_counterexample :
    ¬ ((handle_event (handle_event Context.initial (LoopEvent.MouseMotion 1 0)).1
          (LoopEvent.MouseMotion 2 0)).1.input.mouse.mouse_delta
        = (1 + 2, 0 + 0)) := by
  decide

/-- Claim C3 amended: the stored mouse-motion and scroll deltas are
last-write-wins, not accumulators — each event OVERWRITES the stored pair, so
after any event sequence the stored delta is the final event's delta; and the
event loop performs no frame-boundary reset: neither the frame-update event
nor the redraw event touches the input state. -/
theorem C3_delta_last_write_wins :
    (∀ (mc : MouseContext) (change : Int × Int),
      (mc.set_mouse_delta change).mouse_delta = change ∧
      (mc.set_scroll_delta change).scroll_delta = change) ∧
    (∀ (mc : MouseContext) (evs : List (Int × Int)) (change : Int × Int),
      ((evs ++ [change]).foldl MouseContext.set_mouse_delta mc).mouse_delta = change ∧
      ((evs ++ [change]).foldl MouseContext.set_scroll_delta mc).scroll_delta = change) ∧
    (∀ (ctx : Context) (b : Bool),
      (handle_event ctx (.MainEventsCleared b)).1.input = ctx.input) ∧
    (∀ (ctx : Context) (sr : Except SurfaceError Unit),
      (handle_event ctx (.RedrawRequested sr)).1.input = ctx.input) := by
  refine ⟨fun mc change => ⟨rfl, rfl⟩, fun mc evs change => ?_, fun ctx b => ?_, fun ctx sr => ?_⟩
  · constructor <;>
      simp [List.foldl_append, MouseContext.set_mouse_delta, MouseContext.set_scroll_delta]
  · cases b <;> rfl
  · rcases sr with e | _
    · cases e <;> rfl
    · rfl

theorem resize_window_pos (rc : RenderContext) (w h : Nat) (hw : 0 < w) (hh : 0 < h) :
    rc.resize_window w h =
      { rc with
        window_width := w
        window_height := h
        surface_config_width := w
        surface_config_height := h
        configure_calls := rc.configure_calls + 1 } := by
  unfold RenderContext.resize_window
  rw [if_pos ⟨hw, hh⟩]

/-- Counterexample to claim C9: on `SurfaceError::Outdated` the event loop
falls into the catch-all logging arm — the surface is NOT reconfigured (no
`surface.configure` call happens), contrary to the claim that a lost/outdated
surface triggers reconfiguration with the last known window size. -/
theorem C9_counterexample :
    ¬ ((handle_event Context.initial (LoopEvent.RedrawRequested
          (Except.error SurfaceError.Outdated))).1.render.configure_calls
        = Context.initial.render.configure_calls + 1) := by
  decide

/-- Claim C9 amended: only `SurfaceError::Lost` is handled by reconfiguring
the presentation surface with the last known window size (one configure call,
no exit); `Outdated` (and `Timeout`) reach the catch-all arm that only logs —
the render state is exactly the frame's `execute_raymarch` result, with no
configure call and no exit, so rendering is simply retried next frame; and
`OutOfMemory` sets the loop's exit flag. -/
theorem C9_surface_error_policy :
    ∀ ctx : Context,
      ((0 < ctx.render.window_width ∧ 0 < ctx.render.window_height) →
        ((handle_event ctx (.RedrawRequested (.error .Lost))).1.render.surface_config_width
            = ctx.render.window_width ∧
         (handle_event ctx (.RedrawRequested (.error .Lost))).1.render.surface_config_height
            = ctx.render.window_height ∧
         (handle_event ctx (.RedrawRequested (.error .Lost))).1.render.configure_calls
            = ctx.render.configure_calls + 1 ∧
         (handle_event ctx (.RedrawRequested (.error .Lost))).2 = false)) ∧
      ((handle_event ctx (.RedrawRequested (.error .Outdated))).1.render
          = ctx.render.execute_raymarch ctx.time ∧
       (handle_event ctx (.RedrawRequested (.error .Outdated))).1.render.configure_calls
          = ctx.render.configure_calls ∧
       (handle_event ctx (.RedrawRequested (.error .Outdated))).2 = false) ∧
      ((handle_event ctx (.RedrawRequested (.error .Timeout))).1.render
          = ctx.render.execute_raymarch ctx.time ∧
       (handle_event ctx (.RedrawRequested (.error .Timeout))).2 = false) ∧
      ((handle_event ctx (.RedrawRequested (.error .OutOfMemory))).1.render
          = ctx.render.execute_raymarch ctx.time ∧
       (handle_event ctx (.RedrawRequested (.error .OutOfMemory))).2 = true) := by
  intro ctx
  refine ⟨?_, ⟨rfl, rfl, rfl⟩, ⟨rfl, rfl⟩, ⟨rfl, rfl⟩⟩
  rintro ⟨h1, h2⟩
  have key : (handle_event ctx (.RedrawRequested (.error .Lost))).1.render
      = (ctx.render.execute_raymarch ctx.time).resize_window
          ctx.render.window_width ctx.render.window_height := rfl
  rw [key, resize_window_pos _ _ _ h1 h2]
  exact ⟨rfl, rfl, rfl, rfl⟩

/-- Witness for the amended C9 at the startup context. -/
theorem C9_surface_error_policy_witness :
    (0 < Context.initial.render.window_width ∧ 0 < Context.initial.render.window_height) ∧
    (handle_event Context.initial (LoopEvent.RedrawRequested
        (Except.error SurfaceError.Lost))).1.render.configure_calls
      = Context.initial.render.configure_calls + 1 :=
  ⟨by decide, ((C9_surface_error_policy Context.initial).1 (by decide)).2.2.1⟩
